import Mathlib

/-!
# XyDevKitV1 board: analog button table and button handlers

A shallow embedding of `main/boards/xy-devkit-v1/xy-devkit-v1.cc`:
the `bsp_adc_button_t` enumerators, the straight-line `InitializeButtons`
(six `AdcButton` constructions followed by the handler registrations) and the
handlers `changeVol` and `TogleState`.

Collaborators that the board file only calls (audio codec, display,
application, Wi-Fi provisioning, the `Button` class) are modelled as explicit
state passing over a `World` that records the output volume and the ordered
trace of collaborator calls.
-/

/-! ## The C enum `bsp_adc_button_t` -/

/-- C enum `bsp_adc_button_t`: enumerators are consecutive integers from 0. -/
abbrev bsp_adc_button_t := Nat

/-- Enumerator 0 (nominal 2.41V). -/
def BSP_ADC_BUTTON_REC : bsp_adc_button_t := 0

/-- Enumerator 1 (nominal 1.98V). -/
def BSP_ADC_BUTTON_MODE : bsp_adc_button_t := 1

/-- Enumerator 2 (nominal 1.65V). -/
def BSP_ADC_BUTTON_PLAY : bsp_adc_button_t := 2

/-- Enumerator 3 (nominal 1.11V). -/
def BSP_ADC_BUTTON_SET : bsp_adc_button_t := 3

/-- Enumerator 4 (nominal 0.82V). -/
def BSP_ADC_BUTTON_VOL_DOWN : bsp_adc_button_t := 4

/-- Enumerator 5 (nominal 0.38V). -/
def BSP_ADC_BUTTON_VOL_UP : bsp_adc_button_t := 5

/-- Enumerator 6: the number of analog buttons, used as the array length. -/
def BSP_ADC_BUTTON_NUM : bsp_adc_button_t := 6

/-! ## Constants the board file takes from headers that are not part of it -/

/-- Constants used by the board file and defined in other headers
(`assets/lang_config.h`, `application.h`, `config.h`, the ADC driver).
They are parameters of the embedding. -/
structure Externals where
  /-- The string `Lang::Strings::VOLUME`. -/
  VOLUME : String
  /-- The string `Lang::Strings::MAX_VOLUME`. -/
  MAX_VOLUME : String
  /-- The string `Lang::Strings::MUTED`. -/
  MUTED : String
  /-- The enumerator `kDeviceStateStarting` of the device-state enum. -/
  kDeviceStateStarting : Int
  /-- The enumerator `ADC_CHANNEL_5`. -/
  ADC_CHANNEL_5 : Nat
  /-- The pin `BOOT_BUTTON_GPIO`. -/
  BOOT_BUTTON_GPIO : Int

/-! ## Collaborators -/

/-- One call made by a handler into a collaborator. -/
inductive Call where
  | SetOutputVolume (volume : Int)
  | ShowNotification (text : String)
  | ResetWifiConfiguration
  | ToggleChatState
  deriving DecidableEq, Repr

/-- What the handlers can observe and change: the codec output volume, the
application device state (a C enum value), the Wi-Fi station status, and the
ordered trace of collaborator calls made so far (oldest first). -/
structure World where
  output_volume : Int
  device_state : Int
  wifi_connected : Bool
  calls : List Call
  deriving DecidableEq, Repr

/-- Modelled from the spec: the audio-output collaborator
`SetOutputVolume(v)` (class `AudioCodec`, not in the board file) stores the
value that `output_volume()` returns afterwards; the call is recorded. -/
def AudioCodec.SetOutputVolume (volume : Int) (w : World) : World :=
  { w with output_volume := volume, calls := w.calls ++ [Call.SetOutputVolume volume] }

/-- Modelled from the spec: the display collaborator `ShowNotification(text)`
(class `Display`, not in the board file); only the call is recorded. -/
def Display.ShowNotification (text : String) (w : World) : World :=
  { w with calls := w.calls ++ [Call.ShowNotification text] }

/-- Modelled from the spec: the Wi-Fi-provisioning collaborator
`ResetWifiConfiguration()` (class `WifiBoard`, not in the board file); only
the call is recorded. -/
def WifiBoard.ResetWifiConfiguration (w : World) : World :=
  { w with calls := w.calls ++ [Call.ResetWifiConfiguration] }

/-- Modelled from the spec: the application-state collaborator
`ToggleChatState()` (class `Application`, not in the board file); only the
call is recorded. -/
def Application.ToggleChatState (w : World) : World :=
  { w with calls := w.calls ++ [Call.ToggleChatState] }

/-- The C++ library function `std::to_string(int)`: signed decimal rendering. -/
def std.to_string (value : Int) : String :=
  if value < 0 then "-" ++ Nat.repr value.natAbs else Nat.repr value.natAbs

/-! ## C++ `int` arithmetic -/

/-- The constant `INT_MIN` of a 32-bit `int`. -/
def INT_MIN : Int := -2147483648

/-- The constant `INT_MAX` of a 32-bit `int`. -/
def INT_MAX : Int := 2147483647

/-- The value that a 32-bit two's-complement `int` holds for the exact integer
`x`: `x` itself when `INT_MIN <= x <= INT_MAX`, and `x` wrapped modulo `2^32`
otherwise (what the target computes when an addition overflows). -/
def int32 (x : Int) : Int :=
  (x + 2147483648) % 4294967296 - 2147483648

/-! ## Handlers of the board -/

/-- A zero-argument callback `[this]() ...`, as a transformer of the world. -/
abbrev Handler := World → World

/-- Source `XyDevKitV1::changeVol(int val)`. The sum of line 104 is an addition
of two C++ `int`s, so its result is the 32-bit value `int32` of the exact sum. -/
def XyDevKitV1.changeVol (ext : Externals) (val : Int) (w : World) : World :=
  let volume := int32 (w.output_volume + val)
  let volume := if volume > 100 then 100 else volume
  let volume := if volume < 0 then 0 else volume
  let w := AudioCodec.SetOutputVolume volume w
  Display.ShowNotification (ext.VOLUME ++ std.to_string volume) w

/-- Source `XyDevKitV1::TogleState()`. The `&&` is short-circuit: the Wi-Fi
status is only consulted when the device state is `kDeviceStateStarting`. -/
def XyDevKitV1.TogleState (ext : Externals) (w : World) : World :=
  let w :=
    if w.device_state = ext.kDeviceStateStarting && !w.wifi_connected then
      WifiBoard.ResetWifiConfiguration w
    else w
  Application.ToggleChatState w

/-! ## Buttons -/

/-- Configuration record `button_adc_config_t` of one analog button: the ADC
channel, the index of the button on that channel and its band in millivolts.
(The field `adc_handle` is a hardware handle and carries no data here.) -/
structure button_adc_config_t where
  adc_channel : Nat
  button_index : Nat
  min : Nat
  max : Nat
  deriving DecidableEq, Repr

/-- Modelled from the spec: the `Button` class of `button.h` (not in the board
file), per the construction and registration interface: a button is created
from a GPIO pin or from an analog configuration, holds an optional on-click
and an optional on-long-press callback, and starts with neither. -/
structure Button where
  gpio_num : Option Int
  adc_cfg : Option button_adc_config_t
  on_click_ : Option Handler
  on_long_press_ : Option Handler

/-- Modelled from the spec: constructor `Button(gpio)` of a digital button. -/
def Button.new (gpio_num : Int) : Button :=
  { gpio_num := some gpio_num, adc_cfg := none, on_click_ := none, on_long_press_ := none }

/-- Modelled from the spec: constructor `AdcButton(adc_cfg)` of an analog
button; it keeps a copy of the configuration it is given. -/
def AdcButton.new (adc_cfg : button_adc_config_t) : Button :=
  { gpio_num := none, adc_cfg := some adc_cfg, on_click_ := none, on_long_press_ := none }

/-- Modelled from the spec: `handle.OnClick(fn)`; registering again overwrites. -/
def Button.OnClick (b : Button) (callback : Handler) : Button :=
  { b with on_click_ := some callback }

/-- Modelled from the spec: `handle.OnLongPress(fn)`; registering again overwrites. -/
def Button.OnLongPress (b : Button) (callback : Handler) : Button :=
  { b with on_long_press_ := some callback }

/-- The gesture events of the spec. -/
inductive ButtonEvent where
  | press_start
  | click
  | long_press_start
  | release
  deriving DecidableEq, Repr

/-- Modelled from the spec: `Dispatch(id, event)` invokes the matching handler
synchronously; a missing handler for a fired event is a no-op. Only click and
long-press-start have handler slots. -/
def Button.Dispatch (b : Button) (e : ButtonEvent) (w : World) : World :=
  match e with
  | ButtonEvent.click =>
    match b.on_click_ with
    | some callback => callback w
    | none => w
  | ButtonEvent.long_press_start =>
    match b.on_long_press_ with
    | some callback => callback w
    | none => w
  | _ => w

/-! ## The board and `InitializeButtons` -/

/-- The members of class `XyDevKitV1` that `InitializeButtons` touches: the
boot button and `Button* adc_button_[BSP_ADC_BUTTON_NUM]`. An array entry is
`none` until a pointer has been stored in it. -/
structure XyDevKitV1 where
  boot_button_ : Button
  adc_button_ : Array (Option Button)

/-- The assignment `adc_button_[i] = p`; `none` when `i` is outside the array. -/
def XyDevKitV1.store (arr : Array (Option Button)) (i : Nat) (p : Button) :
    Option (Array (Option Button)) :=
  if i < arr.size then some (arr.setD i (some p)) else none

/-- The read `adc_button_[i]` followed by a use of the pointer; `none` when `i`
is outside the array or no pointer was stored there. -/
def XyDevKitV1.load (arr : Array (Option Button)) (i : Nat) : Option Button :=
  (arr.get? i).join

/-- Source `XyDevKitV1::InitializeButtons()`. The local `adc_cfg` is one record
that is updated field by field before each construction (every field that is
kept here is assigned before the first construction; the creation of the ADC
unit handle has no effect on the fields kept). The two lambdas of the
long-press registrations are inlined. Handlers registered through a pointer
read from the array change the button stored in the array. The result is
`none` if a store or a load goes outside the array or a null entry is used. -/
def XyDevKitV1.InitializeButtons (ext : Externals) (self : XyDevKitV1) : Option XyDevKitV1 := do
  let adc_cfg : button_adc_config_t := { adc_channel := 0, button_index := 0, min := 0, max := 0 }
  let adc_cfg : button_adc_config_t := { adc_cfg with adc_channel := ext.ADC_CHANNEL_5 }
  let adc_cfg : button_adc_config_t := { adc_cfg with button_index := BSP_ADC_BUTTON_REC }
  let adc_cfg : button_adc_config_t := { adc_cfg with min := 2200 }
  let adc_cfg : button_adc_config_t := { adc_cfg with max := 2600 }
  let adc_button_ ← XyDevKitV1.store self.adc_button_ 0 (AdcButton.new adc_cfg)
  let adc_cfg : button_adc_config_t := { adc_cfg with button_index := BSP_ADC_BUTTON_MODE }
  let adc_cfg : button_adc_config_t := { adc_cfg with min := 1800 }
  let adc_cfg : button_adc_config_t := { adc_cfg with max := 2100 }
  let adc_button_ ← XyDevKitV1.store adc_button_ 1 (AdcButton.new adc_cfg)
  let adc_cfg : button_adc_config_t := { adc_cfg with button_index := BSP_ADC_BUTTON_PLAY }
  let adc_cfg : button_adc_config_t := { adc_cfg with min := 1500 }
  let adc_cfg : button_adc_config_t := { adc_cfg with max := 1800 }
  let adc_button_ ← XyDevKitV1.store adc_button_ 2 (AdcButton.new adc_cfg)
  let adc_cfg : button_adc_config_t := { adc_cfg with button_index := BSP_ADC_BUTTON_SET }
  let adc_cfg : button_adc_config_t := { adc_cfg with min := 1000 }
  let adc_cfg : button_adc_config_t := { adc_cfg with max := 1300 }
  let adc_button_ ← XyDevKitV1.store adc_button_ 3 (AdcButton.new adc_cfg)
  let adc_cfg : button_adc_config_t := { adc_cfg with button_index := BSP_ADC_BUTTON_VOL_DOWN }
  let adc_cfg : button_adc_config_t := { adc_cfg with min := 700 }
  let adc_cfg : button_adc_config_t := { adc_cfg with max := 1000 }
  let adc_button_ ← XyDevKitV1.store adc_button_ 4 (AdcButton.new adc_cfg)
  let adc_cfg : button_adc_config_t := { adc_cfg with button_index := BSP_ADC_BUTTON_VOL_UP }
  let adc_cfg : button_adc_config_t := { adc_cfg with min := 280 }
  let adc_cfg : button_adc_config_t := { adc_cfg with max := 500 }
  let adc_button_ ← XyDevKitV1.store adc_button_ 5 (AdcButton.new adc_cfg)
  let volume_up_button ← XyDevKitV1.load adc_button_ BSP_ADC_BUTTON_VOL_UP
  let volume_up_button : Button := volume_up_button.OnClick (XyDevKitV1.changeVol ext 10)
  let volume_up_button : Button := volume_up_button.OnLongPress (fun w =>
    Display.ShowNotification ext.MAX_VOLUME (AudioCodec.SetOutputVolume 100 w))
  let adc_button_ ← XyDevKitV1.store adc_button_ BSP_ADC_BUTTON_VOL_UP volume_up_button
  let volume_down_button ← XyDevKitV1.load adc_button_ BSP_ADC_BUTTON_VOL_DOWN
  let volume_down_button : Button := volume_down_button.OnClick (XyDevKitV1.changeVol ext (-10))
  let volume_down_button : Button := volume_down_button.OnLongPress (fun w =>
    Display.ShowNotification ext.MUTED (AudioCodec.SetOutputVolume 0 w))
  let adc_button_ ← XyDevKitV1.store adc_button_ BSP_ADC_BUTTON_VOL_DOWN volume_down_button
  let break_button ← XyDevKitV1.load adc_button_ BSP_ADC_BUTTON_PLAY
  let break_button : Button := break_button.OnClick (XyDevKitV1.TogleState ext)
  let adc_button_ ← XyDevKitV1.store adc_button_ BSP_ADC_BUTTON_PLAY break_button
  let boot_button_ : Button := self.boot_button_.OnClick (XyDevKitV1.TogleState ext)
  some { boot_button_ := boot_button_, adc_button_ := adc_button_ }

/-- The button part of the constructor `XyDevKitV1()`: the member initialiser
`boot_button_(BOOT_BUTTON_GPIO)`, an array of `BSP_ADC_BUTTON_NUM` pointers
not yet assigned, then `InitializeButtons()`. (The bus, display, IoT and
backlight initialisation calls of the constructor do not touch the buttons.) -/
def XyDevKitV1.new (ext : Externals) : Option XyDevKitV1 :=
  XyDevKitV1.InitializeButtons ext
    { boot_button_ := Button.new ext.BOOT_BUTTON_GPIO,
      adc_button_ := mkArray BSP_ADC_BUTTON_NUM none }

/-- The band table that the board holds: the configurations of the buttons
stored in `adc_button_`, in array order. -/
def XyDevKitV1.bands (self : XyDevKitV1) : List button_adc_config_t :=
  self.adc_button_.toList.filterMap (fun p => p.bind (fun b => b.adc_cfg))

/-- The band table configured by `InitializeButtons` (empty if it failed). -/
def XyDevKitV1.configuredBands (ext : Externals) : List button_adc_config_t :=
  match XyDevKitV1.new ext with
  | some self => self.bands
  | none => []

/-- The collaborator calls that running handler `h` in world `w` adds to the
trace, in order. -/
def callsMade (h : Handler) (w : World) : List Call :=
  (h w).calls.drop w.calls.length

/-- Sample values for the header constants, used to evaluate the embedding at
concrete inputs. -/
def Externals.sample : Externals :=
  { VOLUME := "Volume ", MAX_VOLUME := "Max volume", MUTED := "Muted",
    kDeviceStateStarting := 1, ADC_CHANNEL_5 := 5, BOOT_BUTTON_GPIO := 0 }

/-! ## Band matching, table construction and classification -/

/-- Modelled from the spec: a raw reading matches a band when it lies between
the band's `min` and `max`, both included (the comparison itself is made by
the ADC button driver, which is not in the board file). -/
def button_adc_config_t.matchesReading (b : button_adc_config_t) (raw_millivolts : Nat) : Bool :=
  decide (b.min ≤ raw_millivolts ∧ raw_millivolts ≤ b.max)

/-- Modelled from the spec: `BandClassifier.Classify(raw_millivolts)` (not in
the board file) scans the calibration table and returns the id of the band
containing the reading, or none if no band matches. The scan visits the bands
in the order of the list it is given and stops at the first band that
contains the reading. The spec fixes no scan order, so a result that is meant
to hold of the classifier is stated for every order of the table. -/
def BandClassifier.Classify (table : List button_adc_config_t) (raw_millivolts : Nat) :
    Option bsp_adc_button_t :=
  (table.find? (fun b => b.matchesReading raw_millivolts)).map (fun b => b.button_index)

/-- Modelled from the spec: the error `ConfigurationError` with which
construction of the band table fails (not in the board file). -/
inductive ConfigurationError where
  | invalidTable
  deriving DecidableEq, Repr

/-- Modelled from the spec: the band classifier (not in the board file), which
holds the calibration table it was constructed with. -/
structure BandClassifier where
  table : List button_adc_config_t
  deriving DecidableEq, Repr

/-- Modelled from the spec: two bands overlap when some reading lies in both,
that is when the larger `min` is at most the smaller `max`. -/
def BandClassifier.overlap (a b : button_adc_config_t) : Bool :=
  decide (max a.min b.min ≤ min a.max b.max)

/-- Modelled from the spec: the construction-time check of the band table, one
scan: every band must have `min < max` and must not overlap any band that
comes after it in the table. -/
def BandClassifier.validTable : List button_adc_config_t → Bool
  | [] => true
  | b :: rest =>
    decide (b.min < b.max) && rest.all (fun c => !BandClassifier.overlap b c) &&
      BandClassifier.validTable rest

/-- Modelled from the spec: construction of the band table (not in the board
file) fails with `ConfigurationError` if any two bands overlap or any band has
`min >= max`, and otherwise yields the classifier holding the table. -/
def BandClassifier.new (table : List button_adc_config_t) :
    Except ConfigurationError BandClassifier :=
  if BandClassifier.validTable table then Except.ok { table := table }
  else Except.error ConfigurationError.invalidTable

/-! ## Gesture detection -/

/-- Modelled from the spec: the phases of the per-button gesture state machine. -/
inductive Phase where
  | Idle
  | Pressed
  | LongPressed
  deriving DecidableEq, Repr

/-- Modelled from the spec: `ButtonState`, the per-button state owned by the
gesture detector (not in the board file). -/
structure ButtonState where
  phase : Phase
  pressStartTick : Nat
  lastObservedPressed : Bool
  deriving DecidableEq, Repr

/-- Modelled from the spec: the two thresholds of the gesture detector, in
ticks; their values are fixed per device and not given by the board file. The
debounce window is short (tens of milliseconds) and lasts at least one tick;
the long-press threshold (about a second) is longer than the debounce window. -/
structure GestureConfig where
  T_debounce : Nat
  T_long : Nat
  debounce_pos : 0 < T_debounce
  debounce_lt_long : T_debounce < T_long

/-- Modelled from the spec: a button state is reset to `Idle` at construction. -/
def ButtonState.initial : ButtonState :=
  { phase := Phase.Idle, pressStartTick := 0, lastObservedPressed := false }

/-- Modelled from the spec: one tick of the gesture detector (not in the board
file), following the transition table row by row. `pressStartTick` is the tick
of the first pressed reading of the current press, and the elapsed time since
press start is the number of consecutive ticks for which the reading has been
pressed, the current one included: `now + 1 - pressStartTick`. Debounce: from
`Idle` the state only advances to `Pressed` (emitting press-start) once the
reading has been pressed for `T_debounce` consecutive ticks; an unpressed
reading in `Idle` emits nothing. -/
def GestureDetector.step (cfg : GestureConfig) (now : Nat) (pressed_now : Bool)
    (s : ButtonState) : ButtonState × Option ButtonEvent :=
  match s.phase, pressed_now with
  | Phase.Idle, false =>
    ({ s with lastObservedPressed := false }, none)
  | Phase.Idle, true =>
    let start := if s.lastObservedPressed then s.pressStartTick else now
    if cfg.T_debounce ≤ now + 1 - start then
      ({ phase := Phase.Pressed, pressStartTick := start, lastObservedPressed := true },
        some ButtonEvent.press_start)
    else
      ({ phase := Phase.Idle, pressStartTick := start, lastObservedPressed := true }, none)
  | Phase.Pressed, true =>
    if cfg.T_long ≤ now + 1 - s.pressStartTick then
      ({ s with phase := Phase.LongPressed, lastObservedPressed := true },
        some ButtonEvent.long_press_start)
    else
      ({ s with lastObservedPressed := true }, none)
  | Phase.Pressed, false =>
    ({ s with phase := Phase.Idle, lastObservedPressed := false }, some ButtonEvent.click)
  | Phase.LongPressed, true =>
    ({ s with lastObservedPressed := true }, none)
  | Phase.LongPressed, false =>
    ({ s with phase := Phase.Idle, lastObservedPressed := false }, some ButtonEvent.release)

/-- Modelled from the spec: the poller feeds one reading per tick to the
detector, starting at tick `now`; the result is the list of emitted events,
each with the tick at which it was emitted, together with the final state. -/
def GestureDetector.run (cfg : GestureConfig) :
    Nat → List Bool → ButtonState → List (Nat × ButtonEvent) × ButtonState
  | _, [], s => ([], s)
  | now, pressed_now :: rest, s =>
    let r := GestureDetector.step cfg now pressed_now s
    let out := GestureDetector.run cfg (now + 1) rest r.1
    match r.2 with
    | some e => ((now, e) :: out.1, out.2)
    | none => out

/-- The readings of one press of duration `d` ticks: the button is read as
pressed for `d` consecutive ticks and as released at the next tick. -/
def GestureDetector.press (d : Nat) : List Bool :=
  List.replicate d true ++ [false]

/-- The state of a detector that was constructed at tick 0 and has since been
fed the readings `history`, one per tick. -/
def GestureDetector.stateAfter (cfg : GestureConfig) (history : List Bool) : ButtonState :=
  (GestureDetector.run cfg 0 history ButtonState.initial).2

/-- The events emitted during a press of duration `d` that comes after the
readings `history`: its first pressed reading is at tick `history.length`. -/
def GestureDetector.pressEvents (cfg : GestureConfig) (history : List Bool) (d : Nat) :
    List (Nat × ButtonEvent) :=
  (GestureDetector.run cfg history.length (GestureDetector.press d)
    (GestureDetector.stateAfter cfg history)).1

/-- The values passed to `SetOutputVolume` among a list of calls, in order. -/
def volumesSet (cs : List Call) : List Int :=
  cs.filterMap (fun c =>
    match c with
    | Call.SetOutputVolume v => some v
    | _ => none)

/-! ## Lemmas: the board after construction -/

/-- The board that the constructor builds: all stores and loads of
`InitializeButtons` are in bounds, and the result holds the boot button and
the six analog buttons with their configurations and registered handlers. -/
theorem XyDevKitV1.new_eq (ext : Externals) :
    XyDevKitV1.new ext = some
      { boot_button_ := (Button.new ext.BOOT_BUTTON_GPIO).OnClick (XyDevKitV1.TogleState ext),
        adc_button_ := #[
          some (AdcButton.new ⟨ext.ADC_CHANNEL_5, BSP_ADC_BUTTON_REC, 2200, 2600⟩),
          some (AdcButton.new ⟨ext.ADC_CHANNEL_5, BSP_ADC_BUTTON_MODE, 1800, 2100⟩),
          some ((AdcButton.new ⟨ext.ADC_CHANNEL_5, BSP_ADC_BUTTON_PLAY, 1500, 1800⟩).OnClick
            (XyDevKitV1.TogleState ext)),
          some (AdcButton.new ⟨ext.ADC_CHANNEL_5, BSP_ADC_BUTTON_SET, 1000, 1300⟩),
          some (((AdcButton.new ⟨ext.ADC_CHANNEL_5, BSP_ADC_BUTTON_VOL_DOWN, 700, 1000⟩).OnClick
            (XyDevKitV1.changeVol ext (-10))).OnLongPress
              (fun w => Display.ShowNotification ext.MUTED (AudioCodec.SetOutputVolume 0 w))),
          some (((AdcButton.new ⟨ext.ADC_CHANNEL_5, BSP_ADC_BUTTON_VOL_UP, 280, 500⟩).OnClick
            (XyDevKitV1.changeVol ext 10)).OnLongPress
              (fun w => Display.ShowNotification ext.MAX_VOLUME (AudioCodec.SetOutputVolume 100 w)))] } := by
  simp [XyDevKitV1.new, XyDevKitV1.InitializeButtons, XyDevKitV1.store, XyDevKitV1.load,
    BSP_ADC_BUTTON_NUM, BSP_ADC_BUTTON_REC, BSP_ADC_BUTTON_MODE, BSP_ADC_BUTTON_PLAY,
    BSP_ADC_BUTTON_SET, BSP_ADC_BUTTON_VOL_DOWN, BSP_ADC_BUTTON_VOL_UP, Array.setD, mkArray,
    Array.get?, AdcButton.new, Button.OnClick, Button.OnLongPress]

/-- The band table configured by `InitializeButtons`, in array order. -/
theorem XyDevKitV1.configuredBands_eq (ext : Externals) :
    XyDevKitV1.configuredBands ext =
      [⟨ext.ADC_CHANNEL_5, 0, 2200, 2600⟩, ⟨ext.ADC_CHANNEL_5, 1, 1800, 2100⟩,
       ⟨ext.ADC_CHANNEL_5, 2, 1500, 1800⟩, ⟨ext.ADC_CHANNEL_5, 3, 1000, 1300⟩,
       ⟨ext.ADC_CHANNEL_5, 4, 700, 1000⟩, ⟨ext.ADC_CHANNEL_5, 5, 280, 500⟩] := by
  simp [XyDevKitV1.configuredBands, XyDevKitV1.new_eq, XyDevKitV1.bands, AdcButton.new,
    Button.OnClick, Button.OnLongPress, BSP_ADC_BUTTON_REC, BSP_ADC_BUTTON_MODE,
    BSP_ADC_BUTTON_PLAY, BSP_ADC_BUTTON_SET, BSP_ADC_BUTTON_VOL_DOWN, BSP_ADC_BUTTON_VOL_UP]

/-! ## Lemmas: handlers -/

/-- Calls made by a handler that appends exactly `cs` to the trace. -/
theorem callsMade_of_append (h : Handler) (w : World) (cs : List Call)
    (hc : (h w).calls = w.calls ++ cs) : callsMade h w = cs := by
  simp [callsMade, hc]

/-- An exact integer within the range of `int` is its own 32-bit value. -/
theorem int32_of_in_range (x : Int) (h0 : INT_MIN ≤ x) (h1 : x ≤ INT_MAX) : int32 x = x := by
  unfold INT_MIN at h0
  unfold INT_MAX at h1
  unfold int32
  omega

/-- The two tests of `changeVol` clamp their input to [0,100]. -/
theorem clamp_eq_min_max (x : Int) :
    (if (if x > 100 then 100 else x) < 0 then 0 else (if x > 100 then 100 else x))
      = min 100 (max 0 x) := by
  split_ifs <;> omega

/-- What `changeVol` does: it sets the output volume to the clamped 32-bit sum
and then shows a notification with that same value. -/
theorem XyDevKitV1.changeVol_eq (ext : Externals) (val : Int) (w : World) :
    XyDevKitV1.changeVol ext val w =
      { w with
        output_volume := min 100 (max 0 (int32 (w.output_volume + val))),
        calls := w.calls ++
          [Call.SetOutputVolume (min 100 (max 0 (int32 (w.output_volume + val)))),
           Call.ShowNotification
            (ext.VOLUME ++ std.to_string (min 100 (max 0 (int32 (w.output_volume + val)))))] } := by
  simp only [XyDevKitV1.changeVol, AudioCodec.SetOutputVolume, Display.ShowNotification,
    clamp_eq_min_max, List.append_assoc, List.singleton_append]

/-- The value that `changeVol` passes to `SetOutputVolume`. -/
theorem XyDevKitV1.changeVol_volumesSet (ext : Externals) (val : Int) (w : World) :
    volumesSet (callsMade (XyDevKitV1.changeVol ext val) w) =
      [min 100 (max 0 (int32 (w.output_volume + val)))] := by
  rw [callsMade_of_append _ _ _ (by rw [XyDevKitV1.changeVol_eq])]
  simp [volumesSet]

/-! ## Lemmas: decimal rendering -/

/-- Decimal digit characters of different digits are different. -/
theorem digitChar_lt_ten_inj (a b : Nat) (ha : a < 10) (hb : b < 10)
    (h : Nat.digitChar a = Nat.digitChar b) : a = b := by
  interval_cases a <;> interval_cases b <;> first | rfl | (exact absurd h (by decide))

/-- A decimal digit character is not the minus sign. -/
theorem digitChar_ne_minus (a : Nat) (ha : a < 10) : Nat.digitChar a ≠ '-' := by
  interval_cases a <;> decide

/-- The digits printed by `Nat.toDigitsCore` in base ten, given enough fuel. -/
theorem toDigitsCore_eq (fuel : Nat) : ∀ (n : Nat) (ds : List Char), n < fuel → 0 < n →
    Nat.toDigitsCore 10 fuel n ds = ((Nat.digits 10 n).reverse.map Nat.digitChar) ++ ds := by
  induction fuel with
  | zero => intro n ds h; omega
  | succ f ih =>
    intro n ds h hn
    have hd : Nat.digits 10 n = (n % 10) :: Nat.digits 10 (n / 10) :=
      Nat.digits_def' (by norm_num) hn
    by_cases h0 : n / 10 = 0
    · simp [Nat.toDigitsCore, h0, hd]
    · have hlt : n / 10 < f := by omega
      simp only [Nat.toDigitsCore, h0, if_false]
      rw [ih (n / 10) _ hlt (Nat.pos_of_ne_zero h0), hd]
      simp

/-- Value of a decimal digit character. -/
theorem digitChar_toNat_sub (a : Nat) (ha : a < 10) : (Nat.digitChar a).toNat - 48 = a := by
  interval_cases a <;> rfl

/-- Reading back digit values undoes `Nat.digitChar` on digits below ten. -/
theorem map_digitChar_decode (l : List Nat) (hl : ∀ d ∈ l, d < 10) :
    (l.map Nat.digitChar).map (fun c => c.toNat - 48) = l := by
  induction l with
  | nil => rfl
  | cons a t ih =>
    simp only [List.map_cons]
    rw [digitChar_toNat_sub a (hl a (List.mem_cons_self _ _)),
      ih (fun d hd => hl d (List.mem_cons_of_mem _ hd))]

/-- The characters of `Nat.toDigits 10 n`. -/
theorem toDigits_ten_eq (n : Nat) :
    Nat.toDigits 10 n =
      if n = 0 then ['0'] else (Nat.digits 10 n).reverse.map Nat.digitChar := by
  by_cases h : n = 0
  · subst h; rfl
  · rw [if_neg h, Nat.toDigits, toDigitsCore_eq (n + 1) n [] (by omega) (Nat.pos_of_ne_zero h)]
    simp

/-- Reading back the digit values of a decimal rendering. -/
theorem toDigits_ten_decode (n : Nat) :
    (Nat.toDigits 10 n).map (fun c => c.toNat - 48) = (Nat.digits 10 n).reverse ∨
      (n = 0 ∧ (Nat.toDigits 10 n).map (fun c => c.toNat - 48) = [0]) := by
  rw [toDigits_ten_eq]
  by_cases h : n = 0
  · right; subst h; exact ⟨rfl, rfl⟩
  · left
    rw [if_neg h]
    apply map_digitChar_decode
    intro d hd
    exact Nat.digits_lt_base (by norm_num) (List.mem_reverse.mp hd)

/-- Decimal rendering of naturals is injective. -/
theorem toDigits_ten_injective (a b : Nat) (h : Nat.toDigits 10 a = Nat.toDigits 10 b) :
    a = b := by
  have hz : ∀ n : Nat, n ≠ 0 → (Nat.digits 10 n).reverse ≠ [0] := by
    intro n hn hc
    have h1 : Nat.digits 10 n = [0] := by
      have := congrArg List.reverse hc
      simpa using this
    have h2 := Nat.ofDigits_digits 10 n
    rw [h1] at h2
    simp at h2
    exact hn h2.symm
  have hdec := congrArg (List.map (fun c => c.toNat - 48)) h
  rcases toDigits_ten_decode a with ha | ⟨ha0, ha⟩ <;>
    rcases toDigits_ten_decode b with hb | ⟨hb0, hb⟩
  · rw [ha, hb] at hdec
    have := congrArg List.reverse hdec
    simp only [List.reverse_reverse] at this
    exact (Nat.digits_inj_iff).mp this
  · by_cases ha0 : a = 0
    · rw [ha0, hb0]
    · rw [ha, hb] at hdec
      exact absurd hdec (hz a ha0)
  · by_cases hb0 : b = 0
    · rw [ha0, hb0]
    · rw [ha, hb] at hdec
      exact absurd hdec.symm (hz b hb0)
  · rw [ha0, hb0]

/-- No character of a decimal rendering is the minus sign. -/
theorem toDigits_ten_no_minus (n : Nat) : '-' ∉ Nat.toDigits 10 n := by
  rw [toDigits_ten_eq]
  by_cases h : n = 0
  · subst h; decide
  · rw [if_neg h]
    intro hc
    rcases List.mem_map.mp hc with ⟨d, hd, hc⟩
    exact digitChar_ne_minus d (Nat.digits_lt_base (by norm_num) (List.mem_reverse.mp hd)) hc

/-- The characters of `std.to_string x`. -/
theorem to_string_data (x : Int) :
    (std.to_string x).data =
      if x < 0 then '-' :: Nat.toDigits 10 x.natAbs else Nat.toDigits 10 x.natAbs := by
  unfold std.to_string
  split_ifs <;> simp [Nat.repr, List.asString]

/-- The rendering `std::to_string` is injective on integers. -/
theorem to_string_injective (x y : Int) (h : std.to_string x = std.to_string y) : x = y := by
  have hd := congrArg String.data h
  rw [to_string_data, to_string_data] at hd
  by_cases hx : x < 0 <;> by_cases hy : y < 0
  · rw [if_pos hx, if_pos hy] at hd
    have := toDigits_ten_injective _ _ (List.cons.inj hd).2
    omega
  · rw [if_pos hx, if_neg hy] at hd
    exact absurd (hd ▸ List.mem_cons_self _ _) (toDigits_ten_no_minus _)
  · rw [if_neg hx, if_pos hy] at hd
    exact absurd (hd ▸ List.mem_cons_self _ _) (toDigits_ten_no_minus _)
  · rw [if_neg hx, if_neg hy] at hd
    have := toDigits_ten_injective _ _ hd
    omega

/-- Appending to a fixed string is injective. -/
theorem string_append_left_cancel (p s t : String) (h : p ++ s = p ++ t) : s = t := by
  have hd := congrArg String.data h
  simp only [String.data_append] at hd
  exact String.ext (List.append_cancel_left hd)

/-! ## Lemmas: the band table, its construction and classification -/

/-- Two distinct configured bands that match the same reading are MODE and
PLAY at 1800 or SET and VOL_DOWN at 1000. -/
theorem XyDevKitV1.common_reading (ext : Externals) (b1 b2 : button_adc_config_t) (r : Nat)
    (h1 : b1 ∈ XyDevKitV1.configuredBands ext) (h2 : b2 ∈ XyDevKitV1.configuredBands ext)
    (hne : b1 ≠ b2) (m1 : b1.matchesReading r = true) (m2 : b2.matchesReading r = true) :
    (r = 1800 ∧ ((b1.button_index = BSP_ADC_BUTTON_MODE ∧ b2.button_index = BSP_ADC_BUTTON_PLAY) ∨
                 (b1.button_index = BSP_ADC_BUTTON_PLAY ∧ b2.button_index = BSP_ADC_BUTTON_MODE))) ∨
    (r = 1000 ∧ ((b1.button_index = BSP_ADC_BUTTON_SET ∧ b2.button_index = BSP_ADC_BUTTON_VOL_DOWN) ∨
                 (b1.button_index = BSP_ADC_BUTTON_VOL_DOWN ∧ b2.button_index = BSP_ADC_BUTTON_SET))) := by
  rw [XyDevKitV1.configuredBands_eq] at h1 h2
  simp only [List.mem_cons, List.mem_singleton, List.not_mem_nil, or_false] at h1 h2
  simp only [button_adc_config_t.matchesReading, decide_eq_true_eq] at m1 m2
  simp only [BSP_ADC_BUTTON_MODE, BSP_ADC_BUTTON_PLAY, BSP_ADC_BUTTON_SET, BSP_ADC_BUTTON_VOL_DOWN]
  rcases h1 with rfl | rfl | rfl | rfl | rfl | rfl <;>
    rcases h2 with rfl | rfl | rfl | rfl | rfl | rfl <;>
    first
    | exact absurd rfl hne
    | (simp only at m1 m2 ⊢; omega)
    | (simp at m1 m2 ⊢; omega)

/-- In a list without duplicates whose members exclude one another under `p`,
at most one member satisfies `p`. -/
theorem filter_length_le_one {α : Type} (p : α → Bool) :
    ∀ l : List α, l.Nodup →
      (∀ a ∈ l, ∀ b ∈ l, a ≠ b → p a = true → p b = true → False) →
      (l.filter p).length ≤ 1 := by
  intro l
  induction l with
  | nil => intro _ _; simp
  | cons a t ih =>
    intro hnd hex
    rw [List.nodup_cons] at hnd
    by_cases hpa : p a = true
    · have hnil : t.filter p = [] := by
        rw [List.filter_eq_nil_iff]
        intro b hb hpb
        exact hex a (List.mem_cons_self _ _) b (List.mem_cons_of_mem _ hb)
          (fun hab => hnd.1 (hab ▸ hb)) hpa hpb
      simp [List.filter_cons, hpa, hnil]
    · simp only [List.filter_cons, hpa]
      exact ih hnd.2 (fun x hx y hy => hex x (List.mem_cons_of_mem _ hx) y
        (List.mem_cons_of_mem _ hy))

/-- The configured band table lists six different records. -/
theorem XyDevKitV1.configuredBands_nodup (ext : Externals) :
    (XyDevKitV1.configuredBands ext).Nodup := by
  rw [XyDevKitV1.configuredBands_eq]
  simp

/-- A classification result is the id of a band of the table that contains
the reading. -/
theorem BandClassifier.Classify_some (table : List button_adc_config_t) (r : Nat)
    (id : bsp_adc_button_t) (h : BandClassifier.Classify table r = some id) :
    ∃ b ∈ table, b.button_index = id ∧ b.matchesReading r = true := by
  unfold BandClassifier.Classify at h
  rcases Option.map_eq_some'.mp h with ⟨b, hb, hid⟩
  have hm : (fun c : button_adc_config_t => c.matchesReading r) b = true :=
    List.find?_some (p := fun c : button_adc_config_t => c.matchesReading r) hb
  exact ⟨b, List.mem_of_find?_eq_some hb, hid, hm⟩

/-- Classification gives no button exactly when no band contains the reading. -/
theorem BandClassifier.Classify_none (table : List button_adc_config_t) (r : Nat) :
    BandClassifier.Classify table r = none ↔ ∀ b ∈ table, b.matchesReading r = false := by
  unfold BandClassifier.Classify
  rw [Option.map_eq_none', List.find?_eq_none]
  simp

/-- A scan finds a band as soon as some band of the table contains the
reading. -/
theorem BandClassifier.Classify_isSome (table : List button_adc_config_t) (r : Nat)
    (b : button_adc_config_t) (hb : b ∈ table) (hm : b.matchesReading r = true) :
    ∃ id, BandClassifier.Classify table r = some id := by
  cases h : BandClassifier.Classify table r with
  | some id => exact ⟨id, rfl⟩
  | none =>
    rw [BandClassifier.Classify_none] at h
    rw [h b hb] at hm
    exact absurd hm (by decide)

/-- Whatever the scan order, a reading that only one configured band contains
is classified as that band. -/
theorem BandClassifier.Classify_of_only (ext : Externals) (t : List button_adc_config_t)
    (ht : t.Perm (XyDevKitV1.configuredBands ext)) (r : Nat) (b : button_adc_config_t)
    (hb : b ∈ XyDevKitV1.configuredBands ext) (hm : b.matchesReading r = true)
    (honly : ∀ c ∈ XyDevKitV1.configuredBands ext, c.matchesReading r = true →
      c.button_index = b.button_index) :
    BandClassifier.Classify t r = some b.button_index := by
  obtain ⟨id, hid⟩ := BandClassifier.Classify_isSome t r b (ht.mem_iff.mpr hb) hm
  obtain ⟨c, hc, hci, hcm⟩ := BandClassifier.Classify_some t r id hid
  rw [hid, ← hci, honly c (ht.mem_iff.mp hc) hcm]

/-- Whatever the scan order, classification on the configured table gives no
button as soon as the reading is outside all six bands. -/
theorem BandClassifier.Classify_configured_none (ext : Externals)
    (t : List button_adc_config_t) (ht : t.Perm (XyDevKitV1.configuredBands ext)) (r : Nat)
    (h : r < 280 ∨ (500 < r ∧ r < 700) ∨ (1300 < r ∧ r < 1500) ∨ (2100 < r ∧ r < 2200) ∨
      2600 < r) :
    BandClassifier.Classify t r = none := by
  rw [BandClassifier.Classify_none]
  intro b hb
  have hb2 := ht.mem_iff.mp hb
  rw [XyDevKitV1.configuredBands_eq] at hb2
  simp only [List.mem_cons, List.mem_singleton, List.not_mem_nil, or_false] at hb2
  rcases hb2 with rfl | rfl | rfl | rfl | rfl | rfl <;>
    (simp only [button_adc_config_t.matchesReading, decide_eq_false_iff_not]; omega)

/-- Whatever the scan order, a reading in [2200,2600] is classified as REC. -/
theorem BandClassifier.Classify_configured_rec (ext : Externals)
    (t : List button_adc_config_t) (ht : t.Perm (XyDevKitV1.configuredBands ext)) (r : Nat)
    (h0 : 2200 ≤ r) (h1 : r ≤ 2600) :
    BandClassifier.Classify t r = some BSP_ADC_BUTTON_REC := by
  have h := BandClassifier.Classify_of_only ext t ht r ⟨ext.ADC_CHANNEL_5, 0, 2200, 2600⟩
    (by rw [XyDevKitV1.configuredBands_eq]; simp)
    (by simp [button_adc_config_t.matchesReading, h0, h1])
    (by
      intro c hc hm
      rw [XyDevKitV1.configuredBands_eq] at hc
      simp only [List.mem_cons, List.mem_singleton, List.not_mem_nil, or_false] at hc
      simp only [button_adc_config_t.matchesReading, decide_eq_true_eq] at hm
      rcases hc with rfl | rfl | rfl | rfl | rfl | rfl <;>
        first
        | rfl
        | (simp only at hm; omega))
  exact h

/-- Whatever the scan order, a reading above 1800 and up to 2100 is
classified as MODE. -/
theorem BandClassifier.Classify_configured_mode (ext : Externals)
    (t : List button_adc_config_t) (ht : t.Perm (XyDevKitV1.configuredBands ext)) (r : Nat)
    (h0 : 1800 < r) (h1 : r ≤ 2100) :
    BandClassifier.Classify t r = some BSP_ADC_BUTTON_MODE := by
  have h := BandClassifier.Classify_of_only ext t ht r ⟨ext.ADC_CHANNEL_5, 1, 1800, 2100⟩
    (by rw [XyDevKitV1.configuredBands_eq]; simp)
    (by simp [button_adc_config_t.matchesReading, h1, Nat.le_of_lt h0])
    (by
      intro c hc hm
      rw [XyDevKitV1.configuredBands_eq] at hc
      simp only [List.mem_cons, List.mem_singleton, List.not_mem_nil, or_false] at hc
      simp only [button_adc_config_t.matchesReading, decide_eq_true_eq] at hm
      rcases hc with rfl | rfl | rfl | rfl | rfl | rfl <;>
        first
        | rfl
        | (simp only at hm; omega))
  exact h

/-- Whatever the scan order, the reading 1800, which the MODE band and the
PLAY band both contain, is classified as MODE or as PLAY. -/
theorem BandClassifier.Classify_configured_1800 (ext : Externals)
    (t : List button_adc_config_t) (ht : t.Perm (XyDevKitV1.configuredBands ext)) :
    BandClassifier.Classify t 1800 = some BSP_ADC_BUTTON_MODE ∨
      BandClassifier.Classify t 1800 = some BSP_ADC_BUTTON_PLAY := by
  obtain ⟨id, hid⟩ := BandClassifier.Classify_isSome t 1800 ⟨ext.ADC_CHANNEL_5, 1, 1800, 2100⟩
    (ht.mem_iff.mpr (by rw [XyDevKitV1.configuredBands_eq]; simp))
    (by simp [button_adc_config_t.matchesReading])
  obtain ⟨c, hc, hci, hcm⟩ := BandClassifier.Classify_some t 1800 id hid
  have hc2 := ht.mem_iff.mp hc
  rw [XyDevKitV1.configuredBands_eq] at hc2
  simp only [List.mem_cons, List.mem_singleton, List.not_mem_nil, or_false] at hc2
  rw [hid, ← hci]
  rcases hc2 with rfl | rfl | rfl | rfl | rfl | rfl <;>
    first
    | exact Or.inl rfl
    | exact Or.inr rfl
    | (simp [button_adc_config_t.matchesReading] at hcm)

/-- Running the detector over a non-empty list of readings: one step, then the
rest from the next tick. -/
theorem GestureDetector.run_cons (cfg : GestureConfig) (now : Nat) (p : Bool)
    (rest : List Bool) (s : ButtonState) :
    GestureDetector.run cfg now (p :: rest) s =
      match (GestureDetector.step cfg now p s).2 with
      | some e =>
        ((now, e) :: (GestureDetector.run cfg (now + 1) rest (GestureDetector.step cfg now p s).1).1,
          (GestureDetector.run cfg (now + 1) rest (GestureDetector.step cfg now p s).1).2)
      | none => GestureDetector.run cfg (now + 1) rest (GestureDetector.step cfg now p s).1 :=
  rfl

/-- Running the detector over two lists of readings in a row. -/
theorem GestureDetector.run_append (cfg : GestureConfig) (a b : List Bool) :
    ∀ (now : Nat) (s : ButtonState),
      GestureDetector.run cfg now (a ++ b) s =
        ((GestureDetector.run cfg now a s).1 ++
            (GestureDetector.run cfg (now + a.length) b (GestureDetector.run cfg now a s).2).1,
          (GestureDetector.run cfg (now + a.length) b (GestureDetector.run cfg now a s).2).2) := by
  induction a with
  | nil => intro now s; simp [GestureDetector.run]
  | cons p rest ih =>
    intro now s
    have e : now + 1 + rest.length = now + (rest.length + 1) := by omega
    rw [List.cons_append, GestureDetector.run_cons, GestureDetector.run_cons, ih,
      List.length_cons, e]
    cases (GestureDetector.step cfg now p s).2 <;> simp

/-- After a released reading the detector is idle and remembers no pressed
reading, whatever its state was. -/
theorem GestureDetector.step_released (cfg : GestureConfig) (now : Nat) (s : ButtonState) :
    (GestureDetector.step cfg now false s).1.phase = Phase.Idle ∧
      (GestureDetector.step cfg now false s).1.lastObservedPressed = false := by
  cases h : s.phase <;> simp [GestureDetector.step, h]

/-- A detector whose last reading was not a pressed one (none yet, or a
released one) is idle and remembers no pressed reading. -/
theorem GestureDetector.stateAfter_ready (cfg : GestureConfig) (history : List Bool)
    (h : history.getLast? ≠ some true) :
    (GestureDetector.stateAfter cfg history).phase = Phase.Idle ∧
      (GestureDetector.stateAfter cfg history).lastObservedPressed = false := by
  rcases List.eq_nil_or_concat history with rfl | ⟨front, p, rfl⟩
  · exact ⟨rfl, rfl⟩
  · have hp : p = false := by
      cases p with
      | false => rfl
      | true => simp [List.concat_eq_append] at h
    subst hp
    have hlast : ∀ (now : Nat) (s : ButtonState),
        (GestureDetector.run cfg now [false] s).2 = (GestureDetector.step cfg now false s).1 := by
      intro now s
      rw [GestureDetector.run_cons]
      cases (GestureDetector.step cfg now false s).2 <;> rfl
    rw [GestureDetector.stateAfter, List.concat_eq_append, GestureDetector.run_append]
    simp only [hlast]
    exact GestureDetector.step_released cfg _ _

/-- While the press has lasted for fewer ticks than the debounce window, an
idle detector stays idle, remembers where the press started and emits
nothing. -/
theorem GestureDetector.step_debouncing (cfg : GestureConfig) (t0 now : Nat) (s : ButtonState)
    (hp : s.phase = Phase.Idle)
    (hs : (s.lastObservedPressed = true ∧ s.pressStartTick = t0) ∨
      (s.lastObservedPressed = false ∧ now = t0))
    (hge : t0 ≤ now) (hlt : now + 1 < t0 + cfg.T_debounce) :
    GestureDetector.step cfg now true s =
      ({ phase := Phase.Idle, pressStartTick := t0, lastObservedPressed := true }, none) := by
  rcases hs with ⟨h1, h2⟩ | ⟨h1, h2⟩
  · have hn : ¬ cfg.T_debounce ≤ now + 1 - t0 := by omega
    simp [GestureDetector.step, hp, h1, h2, hn]
  · subst h2
    have hn : ¬ cfg.T_debounce ≤ now + 1 - now := by omega
    simp only [GestureDetector.step, hp, h1, Bool.false_eq_true, if_false, hn]

/-- Debounce phase: pressed readings that end before the press has lasted for
the debounce window leave the detector idle and emit nothing. -/
theorem GestureDetector.run_debouncing (cfg : GestureConfig) (t0 : Nat) (rest : List Bool) :
    ∀ (n now : Nat) (s : ButtonState), s.phase = Phase.Idle →
      ((s.lastObservedPressed = true ∧ s.pressStartTick = t0) ∨
        (s.lastObservedPressed = false ∧ now = t0)) →
      t0 ≤ now → now + n < t0 + cfg.T_debounce →
      ∃ s2 : ButtonState, s2.phase = Phase.Idle ∧
        ((s2.lastObservedPressed = true ∧ s2.pressStartTick = t0) ∨
          (s2.lastObservedPressed = false ∧ now + n = t0)) ∧
        GestureDetector.run cfg now (List.replicate n true ++ rest) s =
          GestureDetector.run cfg (now + n) rest s2 := by
  intro n
  induction n with
  | zero =>
    intro now s hp hs _ _
    exact ⟨s, hp, hs, rfl⟩
  | succ k ih =>
    intro now s hp hs hge hle
    have hstep := GestureDetector.step_debouncing cfg t0 now s hp hs hge (by omega)
    obtain ⟨s2, h1, h2, h3⟩ := ih (now + 1)
      { phase := Phase.Idle, pressStartTick := t0, lastObservedPressed := true } rfl
      (Or.inl ⟨rfl, rfl⟩) (by omega) (by omega)
    have e : now + 1 + k = now + (k + 1) := by omega
    rw [e] at h2 h3
    refine ⟨s2, h1, h2, ?_⟩
    rw [List.replicate_succ, List.cons_append, GestureDetector.run_cons, hstep]
    exact h3

/-- A press shorter than the debounce window emits no event at all. -/
theorem GestureDetector.pressEvents_short (cfg : GestureConfig) (history : List Bool)
    (d : Nat) (h : history.getLast? ≠ some true) (hd : d < cfg.T_debounce) :
    GestureDetector.pressEvents cfg history d = [] := by
  obtain ⟨hp, hl⟩ := GestureDetector.stateAfter_ready cfg history h
  obtain ⟨s2, h1, _, h3⟩ := GestureDetector.run_debouncing cfg history.length [false] d
    history.length (GestureDetector.stateAfter cfg history) hp (Or.inr ⟨hl, rfl⟩)
    (Nat.le_refl _) (by omega)
  rw [GestureDetector.pressEvents, GestureDetector.press, h3, GestureDetector.run_cons]
  simp [GestureDetector.step, h1, GestureDetector.run]

/-! ## The band table (C1, C2, C5) -/

/-- C1 (counterexample): the reading 1800 matches both the MODE band
[1800,2100] and the PLAY band [1500,1800] of the configured table, so these
two distinct bands are not disjoint. -/
theorem mode_and_play_both_match_1800 :
    ∃ b1 ∈ XyDevKitV1.configuredBands Externals.sample,
    ∃ b2 ∈ XyDevKitV1.configuredBands Externals.sample,
      b1.button_index = BSP_ADC_BUTTON_MODE ∧ b2.button_index = BSP_ADC_BUTTON_PLAY ∧
      b1 ≠ b2 ∧ b1.matchesReading 1800 = true ∧ b2.matchesReading 1800 = true ∧
      ((XyDevKitV1.configuredBands Externals.sample).filter
        (fun b => b.matchesReading 1800)).length = 2 := by
  rw [XyDevKitV1.configuredBands_eq]
  exact ⟨⟨5, 1, 1800, 2100⟩, by simp [Externals.sample], ⟨5, 2, 1500, 1800⟩,
    by simp [Externals.sample], by decide⟩

/-- C1 (amended): among the six configured bands, two distinct bands have a
reading in common only if they are MODE and PLAY, whose only common reading is
1800, or SET and VOL_DOWN, whose only common reading is 1000; every other pair
is disjoint, and for every raw reading other than 1000 and 1800 at most one
band matches. -/
theorem bands_disjoint_except_shared_endpoints (ext : Externals) (r : Nat) :
    (∀ b1 ∈ XyDevKitV1.configuredBands ext, ∀ b2 ∈ XyDevKitV1.configuredBands ext,
      b1 ≠ b2 → b1.matchesReading r = true → b2.matchesReading r = true →
        (r = 1800 ∧
          ((b1.button_index = BSP_ADC_BUTTON_MODE ∧ b2.button_index = BSP_ADC_BUTTON_PLAY) ∨
           (b1.button_index = BSP_ADC_BUTTON_PLAY ∧ b2.button_index = BSP_ADC_BUTTON_MODE))) ∨
        (r = 1000 ∧
          ((b1.button_index = BSP_ADC_BUTTON_SET ∧ b2.button_index = BSP_ADC_BUTTON_VOL_DOWN) ∨
           (b1.button_index = BSP_ADC_BUTTON_VOL_DOWN ∧ b2.button_index = BSP_ADC_BUTTON_SET)))) ∧
    (r ≠ 1000 → r ≠ 1800 →
      ((XyDevKitV1.configuredBands ext).filter (fun b => b.matchesReading r)).length ≤ 1) := by
  refine ⟨fun b1 h1 b2 h2 hne m1 m2 => XyDevKitV1.common_reading ext b1 b2 r h1 h2 hne m1 m2, ?_⟩
  intro h1000 h1800
  apply filter_length_le_one _ _ (XyDevKitV1.configuredBands_nodup ext)
  intro b1 h1 b2 h2 hne m1 m2
  rcases XyDevKitV1.common_reading ext b1 b2 r h1 h2 hne m1 m2 with h | h
  · exact h1800 h.1
  · exact h1000 h.1

/-- Witness for C1 (amended): at reading 900 only VOL_DOWN matches. -/
theorem bands_disjoint_except_shared_endpoints_witness :
    (900 : Nat) ≠ 1000 ∧ (900 : Nat) ≠ 1800 ∧
    ((XyDevKitV1.configuredBands Externals.sample).filter
      (fun b => b.matchesReading 900)).length ≤ 1 :=
  ⟨by decide, by decide,
    (bands_disjoint_except_shared_endpoints Externals.sample 900).2 (by decide) (by decide)⟩

/-- C2 (counterexample): the reading 1800 lies in [1800,2100], yet a scan of
the configured table that starts from its other end returns PLAY, whose band
[1500,1800] also contains 1800, and not MODE. -/
theorem reverse_scan_classifies_1800_as_play :
    (XyDevKitV1.configuredBands Externals.sample).reverse.Perm
      (XyDevKitV1.configuredBands Externals.sample) ∧
    (1800 ≤ 1800 ∧ 1800 ≤ 2100) ∧
    BandClassifier.Classify (XyDevKitV1.configuredBands Externals.sample).reverse 1800 =
      some BSP_ADC_BUTTON_PLAY ∧
    BSP_ADC_BUTTON_PLAY ≠ BSP_ADC_BUTTON_MODE := by
  refine ⟨List.reverse_perm _, by decide, ?_, by decide⟩
  rw [XyDevKitV1.configuredBands_eq]
  decide

/-- C2 (amended): classifying a raw reading against the band table configured
in `InitializeButtons`, scanned in any order, returns the id of a band that
contains the reading, and no button exactly when no band contains it: REC for
every reading in [2200,2600] (2400), MODE for every reading above 1800 and up
to 2100 (1900), MODE or PLAY at 1800 (which both bands contain), and no button
below 280, above 2600 (50, 3000) or in a gap between bands. -/
theorem Classify_configured_table (ext : Externals) (t : List button_adc_config_t)
    (ht : t.Perm (XyDevKitV1.configuredBands ext)) (r : Nat) :
    (∀ id, BandClassifier.Classify t r = some id →
      ∃ b ∈ XyDevKitV1.configuredBands ext, b.button_index = id ∧ b.matchesReading r = true) ∧
    (BandClassifier.Classify t r = none ↔
      ∀ b ∈ XyDevKitV1.configuredBands ext, b.matchesReading r = false) ∧
    (2200 ≤ r → r ≤ 2600 → BandClassifier.Classify t r = some BSP_ADC_BUTTON_REC) ∧
    (1800 < r → r ≤ 2100 → BandClassifier.Classify t r = some BSP_ADC_BUTTON_MODE) ∧
    (r = 1800 → BandClassifier.Classify t r = some BSP_ADC_BUTTON_MODE ∨
      BandClassifier.Classify t r = some BSP_ADC_BUTTON_PLAY) ∧
    (r < 280 ∨ 2600 < r → BandClassifier.Classify t r = none) ∧
    ((500 < r ∧ r < 700) ∨ (1300 < r ∧ r < 1500) ∨ (2100 < r ∧ r < 2200) →
      BandClassifier.Classify t r = none) ∧
    BandClassifier.Classify t 2400 = some BSP_ADC_BUTTON_REC ∧
    BandClassifier.Classify t 1900 = some BSP_ADC_BUTTON_MODE ∧
    BandClassifier.Classify t 50 = none ∧
    BandClassifier.Classify t 3000 = none := by
  refine ⟨?_, ?_, BandClassifier.Classify_configured_rec ext t ht r,
    BandClassifier.Classify_configured_mode ext t ht r, ?_, ?_, ?_,
    BandClassifier.Classify_configured_rec ext t ht 2400 (by decide) (by decide),
    BandClassifier.Classify_configured_mode ext t ht 1900 (by decide) (by decide),
    BandClassifier.Classify_configured_none ext t ht 50 (by omega),
    BandClassifier.Classify_configured_none ext t ht 3000 (by omega)⟩
  · intro id h
    obtain ⟨b, hb, hbi, hbm⟩ := BandClassifier.Classify_some t r id h
    exact ⟨b, ht.mem_iff.mp hb, hbi, hbm⟩
  · rw [BandClassifier.Classify_none]
    exact ⟨fun h b hb => h b (ht.mem_iff.mpr hb), fun h b hb => h b (ht.mem_iff.mp hb)⟩
  · intro h
    subst h
    exact BandClassifier.Classify_configured_1800 ext t ht
  · intro h
    exact BandClassifier.Classify_configured_none ext t ht r (by omega)
  · intro h
    exact BandClassifier.Classify_configured_none ext t ht r (by omega)

/-- Witness for C2 (amended): the configured table scanned from its last band
to its first classifies the reading 2000 as MODE. -/
theorem Classify_configured_table_witness :
    (XyDevKitV1.configuredBands Externals.sample).reverse.Perm
      (XyDevKitV1.configuredBands Externals.sample) ∧
    (1800 < 2000 ∧ 2000 ≤ 2100) ∧
    BandClassifier.Classify (XyDevKitV1.configuredBands Externals.sample).reverse 2000 =
      some BSP_ADC_BUTTON_MODE :=
  ⟨List.reverse_perm _, by decide,
    (Classify_configured_table Externals.sample
      (XyDevKitV1.configuredBands Externals.sample).reverse (List.reverse_perm _) 2000).2.2.2.1
        (by decide) (by decide)⟩

/-- C3 (counterexample): when the `int` addition of line 104 overflows, the
value set is not the clamp of the exact sum. With output volume 100 and delta
`INT_MAX` the sum wraps below zero and `changeVol` sets 0, where
`min(100, max(0, 100 + 2147483647))` is 100; with output volume `INT_MAX` a
VOL_UP click sets 0, where `min(100, 2147483647 + 10)` is 100. -/
theorem changeVol_overflow_sets_zero :
    volumesSet (callsMade (XyDevKitV1.changeVol Externals.sample 2147483647)
      { output_volume := 100, device_state := 3, wifi_connected := true, calls := [] }) = [0] ∧
    min (100 : Int) (max 0 (100 + 2147483647)) = 100 ∧
    (∃ (self : XyDevKitV1) (volume_up_button : Button),
      XyDevKitV1.new Externals.sample = some self ∧
      XyDevKitV1.load self.adc_button_ BSP_ADC_BUTTON_VOL_UP = some volume_up_button ∧
      volumesSet (callsMade (volume_up_button.Dispatch ButtonEvent.click)
        { output_volume := 2147483647, device_state := 3, wifi_connected := true,
          calls := [] }) = [0]) ∧
    min (100 : Int) (2147483647 + 10) = 100 := by
  refine ⟨?_, by decide, ⟨_,
    ((AdcButton.new ⟨Externals.sample.ADC_CHANNEL_5, BSP_ADC_BUTTON_VOL_UP, 280, 500⟩).OnClick
      (XyDevKitV1.changeVol Externals.sample 10)).OnLongPress
        (fun w => Display.ShowNotification Externals.sample.MAX_VOLUME
          (AudioCodec.SetOutputVolume 100 w)),
    XyDevKitV1.new_eq Externals.sample, ?_, ?_⟩, by decide⟩
  · rw [XyDevKitV1.changeVol_volumesSet]
    decide
  · simp [XyDevKitV1.load, BSP_ADC_BUTTON_VOL_UP]
  · have e : (((AdcButton.new
        ⟨Externals.sample.ADC_CHANNEL_5, BSP_ADC_BUTTON_VOL_UP, 280, 500⟩).OnClick
        (XyDevKitV1.changeVol Externals.sample 10)).OnLongPress
          (fun w => Display.ShowNotification Externals.sample.MAX_VOLUME
            (AudioCodec.SetOutputVolume 100 w))).Dispatch ButtonEvent.click
        = XyDevKitV1.changeVol Externals.sample 10 := rfl
    rw [e, XyDevKitV1.changeVol_volumesSet]
    decide

/-- C3 (amended): for every current output volume `v` and delta `val` whose
exact sum fits in an `int`, `changeVol(val)` passes `min(100, max(0, v + val))`
to `SetOutputVolume`; whether or not the sum fits, the value set is in
[0,100]; it equals `v + val` whenever `0 <= v + val <= 100`. The click handler
of VOL_UP is `changeVol(10)` and sets `min(100, v + 10)` whenever
`-10 <= v <= INT_MAX - 10`; the click handler of VOL_DOWN is `changeVol(-10)`
and sets `max(0, v - 10)` whenever `INT_MIN + 10 <= v <= 110`; both ranges
contain every volume in [0,100]. -/
theorem changeVol_sets_clamped_volume (ext : Externals) (val : Int) (w : World) :
    (INT_MIN ≤ w.output_volume + val → w.output_volume + val ≤ INT_MAX →
      volumesSet (callsMade (XyDevKitV1.changeVol ext val) w) =
        [min 100 (max 0 (w.output_volume + val))]) ∧
    (∃ x : Int, volumesSet (callsMade (XyDevKitV1.changeVol ext val) w) = [x] ∧
      (XyDevKitV1.changeVol ext val w).output_volume = x ∧ 0 ≤ x ∧ x ≤ 100) ∧
    (0 ≤ w.output_volume + val → w.output_volume + val ≤ 100 →
      volumesSet (callsMade (XyDevKitV1.changeVol ext val) w) = [w.output_volume + val]) ∧
    ∃ (self : XyDevKitV1) (volume_up_button volume_down_button : Button),
      XyDevKitV1.new ext = some self ∧
      XyDevKitV1.load self.adc_button_ BSP_ADC_BUTTON_VOL_UP = some volume_up_button ∧
      XyDevKitV1.load self.adc_button_ BSP_ADC_BUTTON_VOL_DOWN = some volume_down_button ∧
      volume_up_button.Dispatch ButtonEvent.click w = XyDevKitV1.changeVol ext 10 w ∧
      volume_down_button.Dispatch ButtonEvent.click w = XyDevKitV1.changeVol ext (-10) w ∧
      (-10 ≤ w.output_volume → w.output_volume ≤ INT_MAX - 10 →
        volumesSet (callsMade (volume_up_button.Dispatch ButtonEvent.click) w) =
          [min 100 (w.output_volume + 10)]) ∧
      (INT_MIN + 10 ≤ w.output_volume → w.output_volume ≤ 110 →
        volumesSet (callsMade (volume_down_button.Dispatch ButtonEvent.click) w) =
          [max 0 (w.output_volume - 10)]) ∧
      (0 ≤ w.output_volume → w.output_volume ≤ 100 →
        volumesSet (callsMade (volume_up_button.Dispatch ButtonEvent.click) w) =
          [min 100 (w.output_volume + 10)] ∧
        volumesSet (callsMade (volume_down_button.Dispatch ButtonEvent.click) w) =
          [max 0 (w.output_volume - 10)]) := by
  have key := XyDevKitV1.changeVol_volumesSet ext
  have hmin : INT_MIN = -2147483648 := rfl
  have hmax : INT_MAX = 2147483647 := rfl
  have hup : -10 ≤ w.output_volume → w.output_volume ≤ INT_MAX - 10 →
      volumesSet (callsMade (XyDevKitV1.changeVol ext 10) w) =
        [min 100 (w.output_volume + 10)] := by
    intro h0 h1
    rw [key 10 w, int32_of_in_range _ (by omega) (by omega)]
    congr 1
    omega
  have hdown : INT_MIN + 10 ≤ w.output_volume → w.output_volume ≤ 110 →
      volumesSet (callsMade (XyDevKitV1.changeVol ext (-10)) w) =
        [max 0 (w.output_volume - 10)] := by
    intro h0 h1
    rw [key (-10) w, int32_of_in_range _ (by omega) (by omega)]
    congr 1
    omega
  refine ⟨?_, ⟨_, key val w, by rw [XyDevKitV1.changeVol_eq], by omega, by omega⟩, ?_, _,
    ((AdcButton.new ⟨ext.ADC_CHANNEL_5, BSP_ADC_BUTTON_VOL_UP, 280, 500⟩).OnClick
      (XyDevKitV1.changeVol ext 10)).OnLongPress
        (fun w => Display.ShowNotification ext.MAX_VOLUME (AudioCodec.SetOutputVolume 100 w)),
    ((AdcButton.new ⟨ext.ADC_CHANNEL_5, BSP_ADC_BUTTON_VOL_DOWN, 700, 1000⟩).OnClick
      (XyDevKitV1.changeVol ext (-10))).OnLongPress
        (fun w => Display.ShowNotification ext.MUTED (AudioCodec.SetOutputVolume 0 w)),
    XyDevKitV1.new_eq ext, ?_, ?_, rfl, rfl, hup, hdown, ?_⟩
  · intro h0 h1
    rw [key val w, int32_of_in_range _ h0 h1]
  · intro h0 h1
    rw [key val w, int32_of_in_range _ (by omega) (by omega)]
    congr 1
    omega
  · simp [XyDevKitV1.load, BSP_ADC_BUTTON_VOL_UP]
  · simp [XyDevKitV1.load, BSP_ADC_BUTTON_VOL_DOWN]
  · intro h0 h1
    exact ⟨hup (by omega) (by omega), hdown (by omega) (by omega)⟩

/-- Witness for C3 (amended): at volume 95 the delta 10 does not overflow and
sets `min(100, max(0, 95 + 10))`. -/
theorem changeVol_sets_clamped_volume_witness :
    (INT_MIN ≤ 95 + 10 ∧ (95 : Int) + 10 ≤ INT_MAX) ∧
    volumesSet (callsMade (XyDevKitV1.changeVol Externals.sample 10)
      { output_volume := 95, device_state := 3, wifi_connected := true, calls := [] }) =
        [min 100 (max 0 (95 + 10))] :=
  ⟨by decide,
    (changeVol_sets_clamped_volume Externals.sample 10
      { output_volume := 95, device_state := 3, wifi_connected := true, calls := [] }).1
        (by decide) (by decide)⟩

/-- C4: for every prior world (in particular every prior output volume), the
long-press handler registered on VOL_UP sets the output volume to exactly 100
and the one registered on VOL_DOWN sets it to exactly 0. -/
theorem long_press_sets_extreme_volume (ext : Externals) :
    ∃ (self : XyDevKitV1) (volume_up_button volume_down_button : Button),
      XyDevKitV1.new ext = some self ∧
      XyDevKitV1.load self.adc_button_ BSP_ADC_BUTTON_VOL_UP = some volume_up_button ∧
      XyDevKitV1.load self.adc_button_ BSP_ADC_BUTTON_VOL_DOWN = some volume_down_button ∧
      ∀ w : World,
        (volume_up_button.Dispatch ButtonEvent.long_press_start w).output_volume = 100 ∧
        callsMade (volume_up_button.Dispatch ButtonEvent.long_press_start) w =
          [Call.SetOutputVolume 100, Call.ShowNotification ext.MAX_VOLUME] ∧
        (volume_down_button.Dispatch ButtonEvent.long_press_start w).output_volume = 0 ∧
        callsMade (volume_down_button.Dispatch ButtonEvent.long_press_start) w =
          [Call.SetOutputVolume 0, Call.ShowNotification ext.MUTED] := by
  refine ⟨_,
    ((AdcButton.new ⟨ext.ADC_CHANNEL_5, BSP_ADC_BUTTON_VOL_UP, 280, 500⟩).OnClick
      (XyDevKitV1.changeVol ext 10)).OnLongPress
        (fun w => Display.ShowNotification ext.MAX_VOLUME (AudioCodec.SetOutputVolume 100 w)),
    ((AdcButton.new ⟨ext.ADC_CHANNEL_5, BSP_ADC_BUTTON_VOL_DOWN, 700, 1000⟩).OnClick
      (XyDevKitV1.changeVol ext (-10))).OnLongPress
        (fun w => Display.ShowNotification ext.MUTED (AudioCodec.SetOutputVolume 0 w)),
    XyDevKitV1.new_eq ext, ?_, ?_, ?_⟩
  · simp [XyDevKitV1.load, BSP_ADC_BUTTON_VOL_UP]
  · simp [XyDevKitV1.load, BSP_ADC_BUTTON_VOL_DOWN]
  · intro w
    simp [callsMade, AdcButton.new, Button.OnClick, Button.OnLongPress, Button.Dispatch,
      AudioCodec.SetOutputVolume, Display.ShowNotification]

/-- C9: for every current volume and delta, `changeVol(val)` makes exactly two
calls: `SetOutputVolume` with the clamped value, then `ShowNotification` with
the text `VOLUME` followed by the decimal rendering of that same clamped
value; the rendering is unsigned, and the text is the rendering of no other
integer (so it shows the unclamped sum or the prior volume only when these
equal the clamped value). -/
theorem changeVol_notification_shows_set_value (ext : Externals) (val : Int) (w : World) :
    ∃ volume : Int,
      volume = min 100 (max 0 (int32 (w.output_volume + val))) ∧
      callsMade (XyDevKitV1.changeVol ext val) w =
        [Call.SetOutputVolume volume,
         Call.ShowNotification (ext.VOLUME ++ std.to_string volume)] ∧
      std.to_string volume = Nat.repr volume.toNat ∧
      (∀ x : Int, ext.VOLUME ++ std.to_string x = ext.VOLUME ++ std.to_string volume →
        x = volume) := by
  refine ⟨_, rfl, callsMade_of_append _ _ _ (by rw [XyDevKitV1.changeVol_eq]), ?_, ?_⟩
  · have h0 : ¬ (min 100 (max 0 (int32 (w.output_volume + val))) < 0) := by omega
    have h1 : (min 100 (max 0 (int32 (w.output_volume + val)))).natAbs
        = (min 100 (max 0 (int32 (w.output_volume + val)))).toNat := by omega
    simp only [std.to_string, if_neg h0, h1]
  · intro x hx
    exact to_string_injective _ _ (string_append_left_cancel _ _ _ hx)

/-- Witness for C9: volume 95 and delta 10 show and set 100, not 105 or 95. -/
theorem changeVol_notification_shows_set_value_witness :
    callsMade (XyDevKitV1.changeVol Externals.sample 10)
        { output_volume := 95, device_state := 3, wifi_connected := true, calls := [] } =
      [Call.SetOutputVolume 100, Call.ShowNotification "Volume 100"] ∧
    "Volume 100" ≠ "Volume " ++ std.to_string 105 ∧
    "Volume 100" ≠ "Volume " ++ std.to_string 95 := by
  obtain ⟨volume, hv, hcalls, hrepr, hinj⟩ :=
    changeVol_notification_shows_set_value Externals.sample 10
      { output_volume := 95, device_state := 3, wifi_connected := true, calls := [] }
  have hv100 : volume = 100 := by rw [hv]; decide
  subst hv100
  have hs : Externals.sample.VOLUME ++ std.to_string 100 = "Volume 100" := by decide
  refine ⟨by rw [hcalls, hs], ?_, ?_⟩
  · intro h
    have := hinj 105 (by rw [hs]; exact h.symm)
    omega
  · intro h
    have := hinj 95 (by rw [hs]; exact h.symm)
    omega

/-! ## Gestures (C6) -/

/-- C7: for every device state and Wi-Fi status, `TogleState` calls
`ResetWifiConfiguration` if and only if the state is `kDeviceStateStarting`
and the station is not connected; in every case it calls `ToggleChatState`
exactly once, as its last call (after the reset, if any); the click handler of
the PLAY analog button and that of the boot button are both this handler. -/
theorem TogleState_resets_iff_starting_offline (ext : Externals) (w : World) :
    (Call.ResetWifiConfiguration ∈ callsMade (XyDevKitV1.TogleState ext) w ↔
      (w.device_state = ext.kDeviceStateStarting ∧ w.wifi_connected = false)) ∧
    (callsMade (XyDevKitV1.TogleState ext) w).count Call.ToggleChatState = 1 ∧
    (callsMade (XyDevKitV1.TogleState ext) w).getLast? = some Call.ToggleChatState ∧
    callsMade (XyDevKitV1.TogleState ext) w =
      (if w.device_state = ext.kDeviceStateStarting ∧ w.wifi_connected = false then
        [Call.ResetWifiConfiguration, Call.ToggleChatState]
      else [Call.ToggleChatState]) ∧
    ∃ (self : XyDevKitV1) (break_button : Button),
      XyDevKitV1.new ext = some self ∧
      XyDevKitV1.load self.adc_button_ BSP_ADC_BUTTON_PLAY = some break_button ∧
      break_button.on_click_ = some (XyDevKitV1.TogleState ext) ∧
      self.boot_button_.on_click_ = some (XyDevKitV1.TogleState ext) ∧
      break_button.Dispatch ButtonEvent.click w = XyDevKitV1.TogleState ext w ∧
      self.boot_button_.Dispatch ButtonEvent.click w = XyDevKitV1.TogleState ext w := by
  have hcalls : callsMade (XyDevKitV1.TogleState ext) w =
      (if w.device_state = ext.kDeviceStateStarting ∧ w.wifi_connected = false then
        [Call.ResetWifiConfiguration, Call.ToggleChatState]
      else [Call.ToggleChatState]) := by
    by_cases h : w.device_state = ext.kDeviceStateStarting ∧ w.wifi_connected = false
    · simp [callsMade, XyDevKitV1.TogleState, WifiBoard.ResetWifiConfiguration,
        Application.ToggleChatState, h.1, h.2]
    · rw [if_neg h]
      have h2 : ¬ ((decide (w.device_state = ext.kDeviceStateStarting) && !w.wifi_connected)
          = true) := by
        simpa using h
      simp only [callsMade, XyDevKitV1.TogleState, Application.ToggleChatState, if_neg h2]
      simp
  refine ⟨?_, ?_, ?_, hcalls, _,
    (AdcButton.new ⟨ext.ADC_CHANNEL_5, BSP_ADC_BUTTON_PLAY, 1500, 1800⟩).OnClick
      (XyDevKitV1.TogleState ext),
    XyDevKitV1.new_eq ext, ?_, rfl, rfl, rfl, rfl⟩
  · rw [hcalls]; split_ifs with h <;> simp [h]
  · rw [hcalls]; split_ifs <;> simp
  · rw [hcalls]; split_ifs <;> simp
  · simp [XyDevKitV1.load, BSP_ADC_BUTTON_PLAY]

/-- Witness for C7: a device that is starting and offline (reset then toggle). -/
theorem TogleState_resets_iff_starting_offline_witness :
    callsMade (XyDevKitV1.TogleState Externals.sample)
      { output_volume := 70, device_state := 1, wifi_connected := false, calls := [] } =
        [Call.ResetWifiConfiguration, Call.ToggleChatState] :=
  (TogleState_resets_iff_starting_offline Externals.sample
    { output_volume := 70, device_state := 1, wifi_connected := false, calls := [] }).2.2.2.1

/-- C8: after `InitializeButtons`, the REC, MODE and SET buttons have no click
and no long-press handler, and the PLAY and boot buttons have no long-press
handler; dispatching any of those events returns the world unchanged (same
output volume, same call trace: no chat toggle, no Wi-Fi reset). -/
theorem unregistered_events_are_noops (ext : Externals) :
    ∃ (self : XyDevKitV1) (rec_button mode_button set_button play_button : Button),
      XyDevKitV1.new ext = some self ∧
      XyDevKitV1.load self.adc_button_ BSP_ADC_BUTTON_REC = some rec_button ∧
      XyDevKitV1.load self.adc_button_ BSP_ADC_BUTTON_MODE = some mode_button ∧
      XyDevKitV1.load self.adc_button_ BSP_ADC_BUTTON_SET = some set_button ∧
      XyDevKitV1.load self.adc_button_ BSP_ADC_BUTTON_PLAY = some play_button ∧
      rec_button.on_click_ = none ∧ rec_button.on_long_press_ = none ∧
      mode_button.on_click_ = none ∧ mode_button.on_long_press_ = none ∧
      set_button.on_click_ = none ∧ set_button.on_long_press_ = none ∧
      play_button.on_long_press_ = none ∧ self.boot_button_.on_long_press_ = none ∧
      ∀ w : World,
        rec_button.Dispatch ButtonEvent.click w = w ∧
        rec_button.Dispatch ButtonEvent.long_press_start w = w ∧
        mode_button.Dispatch ButtonEvent.click w = w ∧
        mode_button.Dispatch ButtonEvent.long_press_start w = w ∧
        set_button.Dispatch ButtonEvent.click w = w ∧
        set_button.Dispatch ButtonEvent.long_press_start w = w ∧
        play_button.Dispatch ButtonEvent.long_press_start w = w ∧
        self.boot_button_.Dispatch ButtonEvent.long_press_start w = w := by
  refine ⟨_, AdcButton.new ⟨ext.ADC_CHANNEL_5, BSP_ADC_BUTTON_REC, 2200, 2600⟩,
    AdcButton.new ⟨ext.ADC_CHANNEL_5, BSP_ADC_BUTTON_MODE, 1800, 2100⟩,
    AdcButton.new ⟨ext.ADC_CHANNEL_5, BSP_ADC_BUTTON_SET, 1000, 1300⟩,
    (AdcButton.new ⟨ext.ADC_CHANNEL_5, BSP_ADC_BUTTON_PLAY, 1500, 1800⟩).OnClick
      (XyDevKitV1.TogleState ext),
    XyDevKitV1.new_eq ext, ?_, ?_, ?_, ?_, ?_⟩
  · simp [XyDevKitV1.load, BSP_ADC_BUTTON_REC]
  · simp [XyDevKitV1.load, BSP_ADC_BUTTON_MODE]
  · simp [XyDevKitV1.load, BSP_ADC_BUTTON_SET]
  · simp [XyDevKitV1.load, BSP_ADC_BUTTON_PLAY]
  · simp [AdcButton.new, Button.new, Button.OnClick, Button.OnLongPress, Button.Dispatch]

/-- C10: after `InitializeButtons`, for every `i` in 0..5 the button stored at
`adc_button_[i]` was constructed with `button_index` equal to `i`, so indexing
the array by an enumerator name yields the button with that name's band
(VOL_UP has [280,500], VOL_DOWN has [700,1000], PLAY has [1500,1800]); every
index used is below `BSP_ADC_BUTTON_NUM` (no store or load fails). -/
theorem adc_button_index_matches_enum (ext : Externals) :
    ∃ self : XyDevKitV1, XyDevKitV1.new ext = some self ∧
      self.adc_button_.size = BSP_ADC_BUTTON_NUM ∧
      (∀ i : Fin BSP_ADC_BUTTON_NUM, ∃ b cfg,
        XyDevKitV1.load self.adc_button_ i.val = some b ∧ b.adc_cfg = some cfg ∧
          cfg.button_index = i.val) ∧
      (∃ b cfg, XyDevKitV1.load self.adc_button_ BSP_ADC_BUTTON_VOL_UP = some b ∧
        b.adc_cfg = some cfg ∧ cfg.button_index = BSP_ADC_BUTTON_VOL_UP ∧
          cfg.min = 280 ∧ cfg.max = 500) ∧
      (∃ b cfg, XyDevKitV1.load self.adc_button_ BSP_ADC_BUTTON_VOL_DOWN = some b ∧
        b.adc_cfg = some cfg ∧ cfg.button_index = BSP_ADC_BUTTON_VOL_DOWN ∧
          cfg.min = 700 ∧ cfg.max = 1000) ∧
      (∃ b cfg, XyDevKitV1.load self.adc_button_ BSP_ADC_BUTTON_PLAY = some b ∧
        b.adc_cfg = some cfg ∧ cfg.button_index = BSP_ADC_BUTTON_PLAY ∧
          cfg.min = 1500 ∧ cfg.max = 1800) ∧
      BSP_ADC_BUTTON_VOL_UP < BSP_ADC_BUTTON_NUM ∧
      BSP_ADC_BUTTON_VOL_DOWN < BSP_ADC_BUTTON_NUM ∧
      BSP_ADC_BUTTON_PLAY < BSP_ADC_BUTTON_NUM := by
  refine ⟨_, XyDevKitV1.new_eq ext, rfl, ?_, ?_, ?_, ?_, by decide, by decide, by decide⟩
  · intro i
    fin_cases i <;>
      simp [XyDevKitV1.load, AdcButton.new, Button.OnClick, Button.OnLongPress,
        BSP_ADC_BUTTON_REC, BSP_ADC_BUTTON_MODE, BSP_ADC_BUTTON_PLAY, BSP_ADC_BUTTON_SET,
        BSP_ADC_BUTTON_VOL_DOWN, BSP_ADC_BUTTON_VOL_UP]
  · simp [XyDevKitV1.load, AdcButton.new, Button.OnClick, Button.OnLongPress,
      BSP_ADC_BUTTON_VOL_UP]
  · simp [XyDevKitV1.load, AdcButton.new, Button.OnClick, Button.OnLongPress,
      BSP_ADC_BUTTON_VOL_DOWN]
  · simp [XyDevKitV1.load, AdcButton.new, Button.OnClick, Button.OnLongPress,
      BSP_ADC_BUTTON_PLAY]
